import Mathlib

/-!
Verification of the dpmbot mailbox session core against its specification.

The definitions below are a shallow embedding of `src/bot.py`:
the durable record `data.json` becomes `Store`, the MailSlurp backend
becomes oracle functions passed as parameters, and each Telegram button
handler branch becomes a pure function from the durable file state to
the new file state plus an observable outcome.
-/

namespace DPMBot

/-- A per-chat session record, as stored under `data["chats"][chat_id]`
in bot.py (fields `inbox_id`, `email`, `number`). -/
structure ChatEntry where
  inbox_id : String
  email : String
  number : Nat
deriving DecidableEq

/-- The durable record persisted in `data.json`: a counter and a map
from chat id to session.  The json dict is embedded as an association
list with at most one binding per key (all code paths go through
`insertChat`). -/
structure Store where
  counter : Nat
  chats : List (String × ChatEntry)
deriving DecidableEq

/-- The initial record written by `load_data` on cold start:
`{"counter": 0, "chats": {}}` (bot.py line 40). -/
def initData : Store := { counter := 0, chats := [] }

/-- Dictionary lookup `data["chats"].get(chat_id)`. -/
def lookupChat : List (String × ChatEntry) → String → Option ChatEntry
  | [], _ => none
  | (k, v) :: t, cid => if k = cid then some v else lookupChat t cid

/-- Dictionary assignment `data["chats"][chat_id] = entry`: replaces an
existing binding or appends a fresh one. -/
def insertChat : List (String × ChatEntry) → String → ChatEntry → List (String × ChatEntry)
  | [], cid, e => [(cid, e)]
  | (k, v) :: t, cid, e =>
    if k = cid then (cid, e) :: t else (k, v) :: insertChat t cid e

/-- `load_data` (bot.py lines 34-46): returns the loaded record together
with the durable file state after the call.  When the file is absent it
is created with the initial record; otherwise it is read unchanged. -/
def load_data : Option Store → Store × Option Store
  | none => (initData, some initData)
  | some s => (s, some s)

/-- `save_data` (bot.py lines 48-53): overwrite the whole durable file
with the given record. -/
def save_data (d : Store) : Option Store := some d

/-- `get_next_counter` (bot.py lines 55-61): increment `data["counter"]`
by 1, save, and return the new value.  Result: the mutated in-memory
record, the durable file state after the save, and the returned value. -/
def get_next_counter (data : Store) : Store × Option Store × Nat :=
  let d : Store := { data with counter := data.counter + 1 }
  (d, save_data d, d.counter)

/-- Decimal digit characters of `n`, least significant first, computed
with structural fuel.  This embeds Python's decimal rendering of the
nonnegative integer in the f-string `f"admin{num}@..."`. -/
def decDigits : Nat → Nat → List Char
  | 0, _ => []
  | fuel + 1, n => if n = 0 then [] else Nat.digitChar (n % 10) :: decDigits fuel (n / 10)

/-- Decimal rendering of a natural number, as Python's `str` /
f-string formatting produces it. -/
def decRepr (n : Nat) : String :=
  if n = 0 then String.mk ['0'] else String.mk (decDigits n n).reverse

/-- Numeric value of a decimal digit character, inverse of
`Nat.digitChar` on digits below 10. -/
def charVal (c : Char) : Nat := c.toNat - '0'.toNat

/-- Value of a little-endian list of decimal digit characters. -/
def ofDecDigits : List Char → Nat
  | [] => 0
  | c :: t => charVal c + 10 * ofDecDigits t

/-- Result of the backend call `inbox_ctrl.create_inbox(email_address=...)`
(bot.py line 109): a new inbox id plus the backend-confirmed address, or
any exception. -/
inductive InboxResult where
  | ok (id : String) (email_address : String)
  | error
deriving DecidableEq

/-- Observable outcome of the create/change branch of `button_handler`. -/
inductive ProvisionOutcome where
  | provisioned (email : String) (inbox_id : String)
  | provisionFailed
deriving DecidableEq

/-- Everything one create/change call produces: the durable file after
the call, the user-visible outcome, the counter value the call consumed
and the address it requested from the backend. -/
structure ProvStep where
  file : Option Store
  outcome : ProvisionOutcome
  allocated : Nat
  requested : String
deriving DecidableEq

/-- Address format of bot.py line 106: `f"admin{num}@{config.DOMAIN_NAME}"`. -/
def mkAddress (domain : String) (num : Nat) : String :=
  "admin" ++ decRepr num ++ "@" ++ domain

/-- The `create_mail` / `change_mail` branch of `button_handler`
(bot.py lines 102-143): load the record, draw the next counter value
(persisted by `get_next_counter` before the backend call), format the
address, call `create_inbox`; on success store the new session for this
chat (overwriting any prior one) and persist; on any backend exception
leave the record as the counter save left it and report failure. -/
def create_or_change (domain : String) (create_inbox : String → InboxResult)
    (chat_id : String) (file : Option Store) : ProvStep :=
  let data := (load_data file).1
  let gnc := get_next_counter data
  let num := gnc.2.2
  let email_addr := mkAddress domain num
  match create_inbox email_addr with
  | InboxResult.ok id addr =>
    let data2 : Store := { gnc.1 with chats := insertChat gnc.1.chats chat_id ⟨id, addr, num⟩ }
    { file := save_data data2
      outcome := ProvisionOutcome.provisioned addr id
      allocated := num
      requested := email_addr }
  | InboxResult.error =>
    { file := gnc.2.1
      outcome := ProvisionOutcome.provisionFailed
      allocated := num
      requested := email_addr }

/-- One provision/rotate request: which chat pressed the button and how
the backend behaves for that call. -/
structure Call where
  chat_id : String
  create_inbox : String → InboxResult

/-- Run a sequence of provision/rotate calls against the durable file,
in the order the single-threaded event loop commits them, collecting the
address each call allocates. -/
def runProvisions (domain : String) : List Call → Option Store → Option Store × List String
  | [], f => (f, [])
  | c :: t, f =>
    let st := create_or_change domain c.create_inbox c.chat_id f
    let r := runProvisions domain t st.file
    (r.1, st.requested :: r.2)

/-- Result of `email_ctrl.get_emails_for_inbox(inbox_id, limit=1,
sort="DESC")` (bot.py lines 156-160): a list of email ids, or any
exception. -/
inductive FetchEmailsResult where
  | ok (emails : List Nat)
  | error
deriving DecidableEq

/-- A full email as returned by `email_ctrl.get_email` (bot.py line
175); each field may be absent. -/
structure FullEmail where
  subject : Option String
  from_ : Option String
  body : Option String
deriving DecidableEq

/-- Result of `email_ctrl.get_email(id)`: the full email or any
exception. -/
inductive GetEmailResult where
  | ok (e : FullEmail)
  | error
deriving DecidableEq

/-- Observable outcome of the `get_otp` branch of `button_handler`. -/
inductive OtpOutcome where
  | noActiveSession
  | fetchFailed
  | emptyInbox
  | emailFetchFailed
  | shown (text : String)
deriving DecidableEq

/-- The `get_otp` branch of `button_handler` (bot.py lines 146-194):
load the record; if this chat has no session, ask the user to create a
mailbox first; otherwise fetch the most recent email id, then the full
email, and show subject, sender and body (with the source's fallback
strings for absent fields).  Returns the durable file after the call
and the outcome. -/
def getOtp (get_emails_for_inbox : String → FetchEmailsResult)
    (get_email : Nat → GetEmailResult)
    (chat_id : String) (file : Option Store) : Option Store × OtpOutcome :=
  let ld := load_data file
  match lookupChat ld.1.chats chat_id with
  | none => (ld.2, OtpOutcome.noActiveSession)
  | some entry =>
    match get_emails_for_inbox entry.inbox_id with
    | FetchEmailsResult.error => (ld.2, OtpOutcome.fetchFailed)
    | FetchEmailsResult.ok emails =>
      match emails with
      | [] => (ld.2, OtpOutcome.emptyInbox)
      | latest :: _ =>
        match get_email latest with
        | GetEmailResult.error => (ld.2, OtpOutcome.emailFetchFailed)
        | GetEmailResult.ok full_email =>
          let subject := full_email.subject.getD "<no subject>"
          let sender := full_email.from_.getD "<unknown sender>"
          let body := full_email.body.getD "<empty email body>"
          (ld.2, OtpOutcome.shown
            ("Latest email:\n\nSubject: " ++ subject ++ "\nFrom: " ++ sender ++
              "\n\nContent:\n" ++ body))

/-- Modelled from the spec: CodeExtractor's scan.  The retrieval variant
of the front-end that extracts a one-time code is not under src/
(src/bot.py's `get_otp` shows the whole body); the spec's rule is: the
first substring of exactly six consecutive decimal digits bounded by
non-digit characters (or the ends of the text), first match in document
order.  `run` accumulates the current maximal digit run, reversed. -/
def scanRun : List Char → List Char → Option (List Char)
  | [], run => if run.length = 6 then some run.reverse else none
  | c :: cs, run =>
    if c.isDigit then scanRun cs (c :: run)
    else if run.length = 6 then some run.reverse else scanRun cs []

/-- Modelled from the spec: `CodeExtractor.extract(text)` — first
six-digit run bounded by non-digits, none if absent. -/
def extract (text : String) : Option String :=
  (scanRun text.data []).map String.mk

/-- Modelled from the spec: result of
`InboxWaiter.waitForLatest(mailboxId, timeout)` — a message (whose
`textBody` may be absent), a timeout, or a distinct backend error. -/
inductive WaitResult where
  | message (textBody : Option String)
  | timeout
  | backendError
deriving DecidableEq

/-- Outcome of the spec's retrieve-code operation. -/
inductive RetrieveOutcome where
  | noActiveSession
  | retrievalTimeout
  | retrievalFailed
  | code (c : String)
  | codeNotFound
deriving DecidableEq

/-- Modelled from the spec: the SessionController retrieve-code
operation (§4.5) — requires a session, else `NoActiveSession`; waits
for the latest message, mapping timeout to `RetrievalTimeout` and other
backend errors to `RetrievalFailed`; on a message, extracts the code
from its text body (absent body treated as empty text). -/
def retrieveCode (wait : String → WaitResult) (chat_id : String)
    (file : Option Store) : RetrieveOutcome :=
  let data := (load_data file).1
  match lookupChat data.chats chat_id with
  | none => RetrieveOutcome.noActiveSession
  | some entry =>
    match wait entry.inbox_id with
    | WaitResult.timeout => RetrieveOutcome.retrievalTimeout
    | WaitResult.backendError => RetrieveOutcome.retrievalFailed
    | WaitResult.message body =>
      match extract (body.getD "") with
      | some c => RetrieveOutcome.code c
      | none => RetrieveOutcome.codeNotFound

/-- Counter trace events: a `get_next_counter` allocation, or a process
restart (the in-memory state is dropped; the durable file survives). -/
inductive CounterEv where
  | next
  | restart
deriving DecidableEq

/-- Number of allocation events in a counter trace. -/
def countNext : List CounterEv → Nat
  | [] => 0
  | CounterEv.next :: t => countNext t + 1
  | CounterEv.restart :: t => countNext t

/-- Run a trace of allocations and restarts against the durable file,
as bot.py does: every allocation loads the record fresh from disk,
increments, saves, and returns the new value. -/
def runCounter : List CounterEv → Option Store → Option Store × List Nat
  | [], f => (f, [])
  | CounterEv.next :: t, f =>
    let g := get_next_counter (load_data f).1
    let r := runCounter t g.2.1
    (r.1, g.2.2 :: r.2)
  | CounterEv.restart :: t, f => runCounter t f

theorem charVal_digitChar {d : Nat} (h : d < 10) : charVal (Nat.digitChar d) = d := by
  interval_cases d <;> decide

theorem ofDecDigits_decDigits : ∀ (fuel n : Nat), n ≤ fuel → ofDecDigits (decDigits fuel n) = n := by
  intro fuel
  induction fuel with
  | zero => intro n h; interval_cases n; simp [decDigits, ofDecDigits]
  | succ f ih =>
    intro n h
    by_cases hn : n = 0
    · subst hn; simp [decDigits, ofDecDigits]
    · have hdiv : n / 10 ≤ f := by
        have h1 : n / 10 < n := Nat.div_lt_self (Nat.pos_of_ne_zero hn) (by decide)
        omega
      have hmod : n % 10 < 10 := Nat.mod_lt _ (by decide)
      simp only [decDigits, hn, if_false, ofDecDigits, ih (n / 10) hdiv,
        charVal_digitChar hmod]
      omega

theorem decRepr_injective : Function.Injective decRepr := by
  have key : ∀ n : Nat, n ≠ 0 → ofDecDigits (decDigits n n) = n := fun n _ =>
    ofDecDigits_decDigits n n (Nat.le_refl n)
  have mkinj : ∀ (l1 l2 : List Char), String.mk l1 = String.mk l2 → l1 = l2 := by
    intro l1 l2 h
    injection h
  intro a b hab
  by_cases ha : a = 0
  · by_cases hb : b = 0
    · omega
    · exfalso
      rw [decRepr, decRepr, if_pos ha, if_neg hb] at hab
      have hl := mkinj _ _ hab
      have hd : decDigits b b = ['0'] := by
        have := congrArg List.reverse hl
        simpa using this.symm
      have hofb := key b hb
      rw [hd] at hofb
      simp [ofDecDigits, charVal] at hofb
      omega
  · by_cases hb : b = 0
    · exfalso
      rw [decRepr, decRepr, if_neg ha, if_pos hb] at hab
      have hl := mkinj _ _ hab
      have hd : decDigits a a = ['0'] := by
        have := congrArg List.reverse hl
        simpa using this
      have hofa := key a ha
      rw [hd] at hofa
      simp [ofDecDigits, charVal] at hofa
      omega
    · rw [decRepr, decRepr, if_neg ha, if_neg hb] at hab
      have hl := mkinj _ _ hab
      have hd : decDigits a a = decDigits b b := by
        have := congrArg List.reverse hl
        simpa using this
      have h1 := key a ha
      rw [hd, key b hb] at h1
      exact h1.symm

theorem mkAddress_injective (domain : String) : Function.Injective (mkAddress domain) := by
  intro a b hab
  apply decRepr_injective
  have hd := congrArg String.data hab
  simp only [mkAddress, String.data_append, List.append_assoc] at hd
  have h1 := List.append_cancel_left hd
  rw [← List.append_assoc, ← List.append_assoc] at h1
  have h2 := List.append_cancel_right h1
  have h3 := List.append_cancel_right h2
  calc decRepr a = String.mk (decRepr a).data := rfl
    _ = String.mk (decRepr b).data := by rw [h3]
    _ = decRepr b := rfl

theorem lookupChat_insertChat_self (l : List (String × ChatEntry)) (cid : String)
    (e : ChatEntry) : lookupChat (insertChat l cid e) cid = some e := by
  induction l with
  | nil => simp [insertChat, lookupChat]
  | cons h t ih =>
    obtain ⟨k, v⟩ := h
    by_cases hk : k = cid
    · simp [insertChat, hk, lookupChat]
    · simp [insertChat, hk, lookupChat, ih]

theorem create_or_change_allocated (domain : String) (b : String → InboxResult)
    (cid : String) (f : Option Store) :
    (create_or_change domain b cid f).allocated = (load_data f).1.counter + 1 := by
  simp only [create_or_change, get_next_counter, save_data]
  cases b (mkAddress domain ((load_data f).1.counter + 1)) <;> rfl

theorem create_or_change_requested (domain : String) (b : String → InboxResult)
    (cid : String) (f : Option Store) :
    (create_or_change domain b cid f).requested
      = mkAddress domain ((load_data f).1.counter + 1) := by
  simp only [create_or_change, get_next_counter, save_data]
  cases b (mkAddress domain ((load_data f).1.counter + 1)) <;> rfl

theorem create_or_change_ok (domain : String) (b : String → InboxResult)
    (cid : String) (f : Option Store) (id addr : String)
    (hb : b (mkAddress domain ((load_data f).1.counter + 1)) = InboxResult.ok id addr) :
    create_or_change domain b cid f
      = { file := some { counter := (load_data f).1.counter + 1,
                         chats := insertChat (load_data f).1.chats cid
                           ⟨id, addr, (load_data f).1.counter + 1⟩ }
          outcome := ProvisionOutcome.provisioned addr id
          allocated := (load_data f).1.counter + 1
          requested := mkAddress domain ((load_data f).1.counter + 1) } := by
  simp only [create_or_change, get_next_counter, save_data]
  rw [hb]

theorem counter_after_provision (domain : String) (b : String → InboxResult)
    (cid : String) (f : Option Store) :
    (load_data (create_or_change domain b cid f).file).1.counter
      = (load_data f).1.counter + 1 := by
  simp only [create_or_change, get_next_counter, save_data]
  cases b (mkAddress domain ((load_data f).1.counter + 1)) <;> rfl

theorem runProvisions_requested (domain : String) :
    ∀ (calls : List Call) (f : Option Store),
      (runProvisions domain calls f).2
        = (List.range' ((load_data f).1.counter + 1) calls.length).map (mkAddress domain) := by
  intro calls
  induction calls with
  | nil => intro f; simp [runProvisions]
  | cons c t ih =>
    intro f
    simp only [runProvisions]
    rw [ih ((create_or_change domain c.create_inbox c.chat_id f).file),
      counter_after_provision, create_or_change_requested]
    rfl

theorem scanRun_sound : ∀ (l run out : List Char),
    (∀ x ∈ run, x.isDigit = true) → scanRun l run = some out →
    out.length = 6 ∧ ∀ ch ∈ out, ch.isDigit = true := by
  intro l
  induction l with
  | nil =>
    intro run out hrun h
    simp only [scanRun] at h
    by_cases h6 : run.length = 6
    · rw [if_pos h6] at h
      have hout := Option.some.inj h
      subst hout
      refine ⟨by simpa using h6, ?_⟩
      intro ch hch
      exact hrun ch (List.mem_reverse.mp hch)
    · rw [if_neg h6] at h
      cases h
  | cons c cs ih =>
    intro run out hrun h
    simp only [scanRun] at h
    by_cases hc : c.isDigit = true
    · rw [if_pos hc] at h
      refine ih (c :: run) out ?_ h
      intro x hx
      rcases List.mem_cons.mp hx with h1 | h1
      · subst h1; exact hc
      · exact hrun x h1
    · rw [if_neg hc] at h
      by_cases h6 : run.length = 6
      · rw [if_pos h6] at h
        have hout := Option.some.inj h
        subst hout
        refine ⟨by simpa using h6, ?_⟩
        intro ch hch
        exact hrun ch (List.mem_reverse.mp hch)
      · rw [if_neg h6] at h
        refine ih [] out ?_ h
        intro x hx
        cases hx

theorem runCounter_values : ∀ (evs : List CounterEv) (f : Option Store),
    (runCounter evs f).2
      = List.range' ((load_data f).1.counter + 1) (countNext evs) := by
  intro evs
  induction evs with
  | nil => intro f; simp [runCounter, countNext]
  | cons e t ih =>
    intro f
    cases e with
    | next =>
      simp only [runCounter, get_next_counter, save_data]
      rw [ih]
      simp only [load_data, countNext]
      rfl
    | restart =>
      simp only [runCounter]
      rw [ih]
      simp only [countNext]

/-- C1: for every retrieve-code call that obtains a message, the result
is the first run of exactly six decimal digits bounded by non-digits in
the message text, in document order; `CodeNotFound` when no such run
exists; an absent body reads as empty text.  Any returned code has
exactly six characters, all digits; a seven-digit run is skipped and
the first qualifying run wins (spec's own boundary examples). -/
theorem code_extraction_first_six_digit_run
    (file : Option Store) (cid : String) (e : ChatEntry)
    (wait : String → WaitResult) (body : Option String)
    (hs : lookupChat (load_data file).1.chats cid = some e)
    (hw : wait e.inbox_id = WaitResult.message body) :
    retrieveCode wait cid file = (match extract (body.getD "") with
      | some c => RetrieveOutcome.code c
      | none => RetrieveOutcome.codeNotFound) ∧
    (∀ (t : String) (c : String), extract t = some c →
      c.length = 6 ∧ ∀ ch ∈ c.data, ch.isDigit = true) ∧
    extract "code 123456 now" = some "123456" ∧
    extract "code 1234567 now" = none ∧
    extract "a:111111 b:222222" = some "111111" ∧
    extract "" = none := by
  refine ⟨?_, ?_, by decide, by decide, by decide, by decide⟩
  · simp [retrieveCode, hs, hw]
  · intro t c h
    unfold extract at h
    cases hsc : scanRun t.data [] with
    | none => rw [hsc] at h; cases h
    | some l =>
      rw [hsc] at h
      have hc : String.mk l = c := Option.some.inj h
      have hsound := scanRun_sound t.data [] l (by intro x hx; cases hx) hsc
      subst hc
      exact ⟨hsound.1, hsound.2⟩

/-- C1 witness: a concrete session and a concrete message containing
`code 123456 now` yield the code `123456`. -/
theorem code_extraction_first_six_digit_run_witness :
    retrieveCode (fun _ => WaitResult.message (some "code 123456 now")) "7"
        (some { counter := 1,
                chats := [("7", { inbox_id := "ib", email := "admin1@d", number := 1 })] })
      = RetrieveOutcome.code "123456" := by
  have h := code_extraction_first_six_digit_run
    (some { counter := 1,
            chats := [("7", { inbox_id := "ib", email := "admin1@d", number := 1 })] })
    "7" { inbox_id := "ib", email := "admin1@d", number := 1 }
    (fun _ => WaitResult.message (some "code 123456 now")) (some "code 123456 now")
    (by decide) rfl
  rw [h.1]
  decide

/-- C2: with an active session, a waiter timeout surfaces as
`RetrievalTimeout` and a distinct backend error as `RetrievalFailed`;
`retrieveCode` is a total function, so the operation always completes
with one of these outcomes rather than hanging or crashing. -/
theorem retrieve_timeout_and_backend_error_surfaced
    (file : Option Store) (cid : String) (e : ChatEntry)
    (waitT waitE : String → WaitResult)
    (hs : lookupChat (load_data file).1.chats cid = some e)
    (ht : waitT e.inbox_id = WaitResult.timeout)
    (he : waitE e.inbox_id = WaitResult.backendError) :
    retrieveCode waitT cid file = RetrieveOutcome.retrievalTimeout ∧
    retrieveCode waitE cid file = RetrieveOutcome.retrievalFailed := by
  constructor
  · simp [retrieveCode, hs, ht]
  · simp [retrieveCode, hs, he]

/-- C2 witness: a concrete session against a mailbox whose waiter times
out completes with `RetrievalTimeout`. -/
theorem retrieve_timeout_and_backend_error_surfaced_witness :
    retrieveCode (fun _ => WaitResult.timeout) "7"
        (some { counter := 1,
                chats := [("7", { inbox_id := "ib", email := "admin1@d", number := 1 })] })
      = RetrieveOutcome.retrievalTimeout :=
  (retrieve_timeout_and_backend_error_surfaced
    (some { counter := 1,
            chats := [("7", { inbox_id := "ib", email := "admin1@d", number := 1 })] })
    "7" { inbox_id := "ib", email := "admin1@d", number := 1 }
    (fun _ => WaitResult.timeout) (fun _ => WaitResult.backendError)
    (by decide) rfl rfl).1

/-- C3: any sequence of N provision/rotate calls — any chats, any
backend behaviours, committed in any order by the single-threaded event
loop (the load-increment-save section contains no suspension point, so
concurrent handler invocations linearize) — allocates exactly N
pairwise-distinct addresses. -/
theorem concurrent_provisions_allocate_distinct_addresses
    (domain : String) (calls : List Call) (file : Option Store) :
    (runProvisions domain calls file).2.length = calls.length ∧
    (runProvisions domain calls file).2.Nodup := by
  constructor
  · rw [runProvisions_requested]
    simp [List.length_range']
  · rw [runProvisions_requested]
    exact List.Nodup.map (mkAddress_injective domain) (List.nodup_range' _ _)

/-- C4: when the backend rejects inbox creation, the outcome is
`ProvisionFailed`, the persisted record keeps the chats map exactly as
it was (`NoSession` stays `NoSession`, a prior session is kept) while
the counter increment — persisted before the backend call — is kept,
and the next allocation draws a fresh number. -/
theorem provision_failure_keeps_sessions_and_consumes_counter
    (domain cid : String) (file : Option Store)
    (backend backend2 : String → InboxResult) (cid2 : String)
    (hb : backend (mkAddress domain ((load_data file).1.counter + 1)) = InboxResult.error) :
    (create_or_change domain backend cid file).outcome = ProvisionOutcome.provisionFailed ∧
    (create_or_change domain backend cid file).file
      = some { counter := (load_data file).1.counter + 1,
               chats := (load_data file).1.chats } ∧
    (create_or_change domain backend2 cid2
        ((create_or_change domain backend cid file).file)).allocated
      = (load_data file).1.counter + 1 + 1 := by
  have hstep : create_or_change domain backend cid file
      = { file := some { counter := (load_data file).1.counter + 1,
                         chats := (load_data file).1.chats }
          outcome := ProvisionOutcome.provisionFailed
          allocated := (load_data file).1.counter + 1
          requested := mkAddress domain ((load_data file).1.counter + 1) } := by
    simp only [create_or_change, get_next_counter, save_data]
    rw [hb]
  refine ⟨by rw [hstep], by rw [hstep], ?_⟩
  rw [create_or_change_allocated, counter_after_provision]

/-- C4 witness: a backend that always errors, applied to the cold-start
store, reports `ProvisionFailed`. -/
theorem provision_failure_keeps_sessions_and_consumes_counter_witness :
    (create_or_change "d" (fun _ => InboxResult.error) "7" none).outcome
      = ProvisionOutcome.provisionFailed :=
  (provision_failure_keeps_sessions_and_consumes_counter "d" "7" none
    (fun _ => InboxResult.error) (fun _ => InboxResult.error) "8" rfl).1

/-- C5: an absent durable store is initialized to
`{counter: 0, chats: {}}` (created and persisted by `load_data`), and
the first provision call after that cold start consumes counter value 1
and requests the first sequential address. -/
theorem cold_start_initializes_store_and_first_allocation_is_one
    (domain cid : String) (backend : String → InboxResult) :
    load_data none = (initData, some initData) ∧
    initData = { counter := 0, chats := [] } ∧
    (create_or_change domain backend cid none).allocated = 1 ∧
    (create_or_change domain backend cid none).requested = mkAddress domain 1 ∧
    decRepr 1 = "1" := by
  refine ⟨rfl, rfl, ?_, ?_, by decide⟩
  · rw [create_or_change_allocated]
    rfl
  · rw [create_or_change_requested]
    rfl

/-- C6: `get_next_counter` returns the old counter plus one and
persists exactly that record before returning; over any trace of
allocations and restarts the returned values are the consecutive
integers starting above the initial durable counter, hence strictly
increasing by one per allocation and never repeated. -/
theorem counter_increments_persist_and_never_repeat
    (evs : List CounterEv) (file : Option Store) (data : Store) :
    (get_next_counter data).2.2 = data.counter + 1 ∧
    (get_next_counter data).2.1 = some { data with counter := data.counter + 1 } ∧
    (runCounter evs file).2
      = List.range' ((load_data file).1.counter + 1) (countNext evs) ∧
    (runCounter evs file).2.Nodup := by
  refine ⟨rfl, rfl, runCounter_values evs file, ?_⟩
  rw [runCounter_values]
  exact List.nodup_range' _ _

/-- C7: after a successful provision followed by a successful rotate
for the same conversation, the stored session is exactly the rotated
one — its address is the backend-confirmed address of the second
`create_inbox` call — and (when the backend issued a different id) the
prior mailbox id is no longer retrievable for that conversation. -/
theorem rotation_overwrites_previous_session
    (domain cid : String) (file : Option Store)
    (b1 b2 : String → InboxResult) (id1 addr1 id2 addr2 : String)
    (h1 : b1 (mkAddress domain ((load_data file).1.counter + 1)) = InboxResult.ok id1 addr1)
    (h2 : b2 (mkAddress domain ((load_data file).1.counter + 1 + 1)) = InboxResult.ok id2 addr2) :
    lookupChat (load_data (create_or_change domain b2 cid
        (create_or_change domain b1 cid file).file).file).1.chats cid
      = some { inbox_id := id2, email := addr2,
               number := (load_data file).1.counter + 1 + 1 } ∧
    (id1 ≠ id2 →
      ∀ en, lookupChat (load_data (create_or_change domain b2 cid
          (create_or_change domain b1 cid file).file).file).1.chats cid = some en →
        en.inbox_id ≠ id1) := by
  have hlook : lookupChat (load_data (create_or_change domain b2 cid
      (create_or_change domain b1 cid file).file).file).1.chats cid
      = some { inbox_id := id2, email := addr2,
               number := (load_data file).1.counter + 1 + 1 } := by
    simp only [create_or_change_ok domain b1 cid file id1 addr1 h1]
    rw [create_or_change_ok domain b2 cid
        (some { counter := (load_data file).1.counter + 1,
                chats := insertChat (load_data file).1.chats cid
                  ⟨id1, addr1, (load_data file).1.counter + 1⟩ })
        id2 addr2 (by exact h2)]
    exact lookupChat_insertChat_self _ _ _
  refine ⟨hlook, ?_⟩
  intro hne en hen
  rw [hlook] at hen
  have := Option.some.inj hen
  subst this
  simpa using fun h => hne h.symm

/-- C7 witness: provision then rotate on the cold-start store with two
concrete successful backends stores only the rotated session. -/
theorem rotation_overwrites_previous_session_witness :
    lookupChat (load_data (create_or_change "d" (fun _ => InboxResult.ok "B" "bb@d") "7"
        (create_or_change "d" (fun _ => InboxResult.ok "A" "aa@d") "7" none).file).file).1.chats "7"
      = some { inbox_id := "B", email := "bb@d",
               number := (load_data none).1.counter + 1 + 1 } :=
  (rotation_overwrites_previous_session "d" "7" none
    (fun _ => InboxResult.ok "A" "aa@d") (fun _ => InboxResult.ok "B" "bb@d")
    "A" "aa@d" "B" "bb@d" rfl rfl).1

/-- C8: every allocation requests the address
`"admin" ++ decimal(number) ++ "@" ++ domain` built from the value
`get_next_counter` returns, for every backend behaviour and store —
allocation is a total composition with no failure mode of its own. -/
theorem address_format_admin_number_domain
    (domain cid : String) (backend : String → InboxResult) (file : Option Store) :
    (create_or_change domain backend cid file).requested
      = "admin" ++ decRepr ((get_next_counter (load_data file).1).2.2) ++ "@" ++ domain ∧
    (create_or_change domain backend cid file).allocated
      = (get_next_counter (load_data file).1).2.2 := by
  constructor
  · rw [create_or_change_requested]
    rfl
  · rw [create_or_change_allocated]
    rfl

/-- C9: a retrieve request for a conversation with no stored session
reports the no-active-session outcome and is independent of the mail
backend — the same result for any pair of backend oracles, so the
backend is never consulted. -/
theorem retrieve_without_session_reports_no_active_session
    (fetch1 fetch2 : String → FetchEmailsResult) (getE1 getE2 : Nat → GetEmailResult)
    (cid : String) (file : Option Store)
    (h : lookupChat (load_data file).1.chats cid = none) :
    (getOtp fetch1 getE1 cid file).2 = OtpOutcome.noActiveSession ∧
    getOtp fetch1 getE1 cid file = getOtp fetch2 getE2 cid file := by
  constructor
  · simp [getOtp, h]
  · simp [getOtp, h]

/-- C9 witness: the cold-start store has no session for chat `1`, and
the retrieve reports the no-active-session outcome. -/
theorem retrieve_without_session_reports_no_active_session_witness :
    (getOtp (fun _ => FetchEmailsResult.error) (fun _ => GetEmailResult.error) "1" none).2
      = OtpOutcome.noActiveSession :=
  (retrieve_without_session_reports_no_active_session
    (fun _ => FetchEmailsResult.error) (fun _ => FetchEmailsResult.error)
    (fun _ => GetEmailResult.error) (fun _ => GetEmailResult.error)
    "1" none rfl).1

/-- C10 counterexample: against an absent durable store, the retrieve
operation is not write-free — its `load_data` call creates the file
with the initial record, so the durable state differs before (absent)
and after (present). -/
theorem retrieve_on_absent_store_creates_file :
    (getOtp (fun _ => FetchEmailsResult.error) (fun _ => GetEmailResult.error)
        "1" none).1 = some initData ∧
    some initData ≠ (none : Option Store) := by
  constructor
  · rfl
  · decide

/-- C10 amended: a retrieve operation performs no write beyond the
cold-start initialization done by `load_data`: the file after the call
is exactly the file `load_data` leaves, the record as loaded is
identical before and after for every outcome, and an existing store
file is byte-for-byte unchanged. -/
theorem retrieve_writes_only_coldstart_init
    (fetch : String → FetchEmailsResult) (getE : Nat → GetEmailResult)
    (cid : String) (file : Option Store) :
    (getOtp fetch getE cid file).1 = (load_data file).2 ∧
    (load_data (getOtp fetch getE cid file).1).1 = (load_data file).1 ∧
    (∀ s : Store, file = some s → (getOtp fetch getE cid file).1 = some s) := by
  have hfst : (getOtp fetch getE cid file).1 = (load_data file).2 := by
    simp only [getOtp]
    split
    · rfl
    · split
      · rfl
      · split
        · rfl
        · split
          · rfl
          · rfl
  refine ⟨hfst, ?_, ?_⟩
  · rw [hfst]
    cases file <;> rfl
  · intro s hs
    subst hs
    rw [hfst]
    rfl

/-- C10 amended witness: with an existing store holding the initial
record, a failing retrieve leaves the file exactly as it was. -/
theorem retrieve_writes_only_coldstart_init_witness :
    (getOtp (fun _ => FetchEmailsResult.error) (fun _ => GetEmailResult.error)
        "9" (some initData)).1 = some initData :=
  (retrieve_writes_only_coldstart_init
    (fun _ => FetchEmailsResult.error) (fun _ => GetEmailResult.error)
    "9" (some initData)).2.2 initData rfl

end DPMBot
